import Mathlib

/-!
Verification development for the `telesign` Python client library
(`telesign/api.py`).  The Python module is shallowly embedded: each
method of `ServiceBase`, `PhoneId` and `Verify` becomes a pure Lean
function; the mutable `self` object becomes an explicit state value
that every operation receives and returns; external collaborators
(`telesign.auth.generate_auth_headers`, Python's `json.loads`, the
`requests` transport, and the module-level `SystemRandom` instance)
are threaded in as explicit function arguments, so that every
definition is executable on concrete inputs.
-/

set_option autoImplicit false
set_option linter.unusedVariables false

/-- A Python `dict` with string keys and values, embedded as an
association list in insertion order (Python 3.7+ dicts preserve
insertion order).  Keys are unique in every dict the library builds. -/
abbrev Fields := List (String × String)

/-- Python dict assignment `d[k] = v`: if the key is present its value
is replaced in place (keeping its position), otherwise the pair is
appended at the end.  On the unique-key lists the library builds this
replaces the unique occurrence. -/
def dictSet : Fields → String → String → Fields
  | [], k, v => [(k, v)]
  | p :: rest, k, v => if p.1 = k then (k, v) :: rest else p :: dictSet rest k v

/-- Python dict lookup `d[k]` (as an `Option`): the value at the first
occurrence of the key, if any. -/
def dictGet (d : Fields) (k : String) : Option String :=
  match d with
  | [] => none
  | p :: rest => if p.1 = k then some p.2 else dictGet rest k

/-- Python `d.update(e)`: assign every entry of `e` into `d`, in order. -/
def dictUpdate (d : Fields) (e : Fields) : Fields :=
  e.foldl (fun a p => dictSet a p.1 p.2) d

/-- Python truthiness of an optional-string parameter
(`if x:`): `None` and the empty string are falsy. -/
def pyTruthy : Option String → Bool
  | none => false
  | some s => s ≠ ""

/-- An HTTP response as the `requests` library hands it back:
`status_code`, body `text`, and response `headers`. -/
structure HttpResponse where
  status_code : Nat
  text : String
  headers : Fields
deriving Repr, DecidableEq

/-- The HTTP request issued through `requests.get` / `requests.post`:
`params` are the URL query parameters (GET calls), `data` is the
form-encoded body (POST calls). -/
structure HttpRequest where
  url : String
  method : String
  params : Fields
  data : Fields
  headers : Fields
  proxies : Option (String × String)
deriving Repr, DecidableEq

/-- The `telesign.api.Response` envelope object. -/
structure Response (J : Type) where
  data : J
  headers : Fields
  status : Nat
  raw_data : String
  verify_code : Option String
deriving Repr, DecidableEq

/-- The exceptions `ServiceBase._validate_response` can raise: a
`ValueError` from `json.loads` on a non-JSON body, or the
`AuthorizationError` / `TelesignError` of `telesign.exceptions`,
each carrying the parsed body and the raw response. -/
inductive ValidateError (J : Type) where
  | jsonDecodeError : ValidateError J
  | authorizationError : J → HttpResponse → ValidateError J
  | telesignError : J → HttpResponse → ValidateError J
deriving Repr, DecidableEq

/-- The state of a `ServiceBase` (and hence `PhoneId` / `Verify`)
instance: the five attributes `__init__` assigns. -/
structure ServiceBase where
  _customer_id : String
  _secret_key : String
  _api_host : String
  _url : String
  _proxy : Option (String × String)
deriving Repr, DecidableEq

/-- `ServiceBase.__init__`: stores the credential and host and derives
`_url` and `_proxy` from the `ssl` flag and optional `proxy_host`. -/
def ServiceBase.init (api_host customer_id secret_key : String) (ssl : Bool)
    (proxy_host : Option String) : ServiceBase :=
  let http_root := if ssl then "https" else "http"
  { _customer_id := customer_id
    _secret_key := secret_key
    _api_host := api_host
    _proxy := proxy_host.map (fun ph => (http_root, http_root ++ "://" ++ ph))
    _url := http_root ++ "://" ++ api_host }

/-- `ServiceBase._validate_response`.  The Python body first runs
`resp_obj = json.loads(response.text)` (which raises on a non-JSON
body), then compares `response.status_code` against
`requests.codes.ok` (200) and `requests.codes.unauthorized` (401).
`json.loads` is Python standard library, external to this repository,
so it is passed in as `jsonLoads`; a parse failure is its `none`. -/
def ServiceBase.validate_response {J : Type} (jsonLoads : String → Option J)
    (response : HttpResponse) : Except (ValidateError J) J :=
  match jsonLoads response.text with
  | none => Except.error ValidateError.jsonDecodeError
  | some resp_obj =>
    if response.status_code ≠ 200 then
      if response.status_code = 401 then
        Except.error (ValidateError.authorizationError resp_obj response)
      else
        Except.error (ValidateError.telesignError resp_obj response)
    else
      Except.ok resp_obj

/-- Does `_validate_response` raise `AuthorizationError`? -/
def isAuthorizationError {J : Type} : Except (ValidateError J) J → Bool
  | Except.error (ValidateError.authorizationError _ _) => true
  | _ => false

/-- Does `_validate_response` raise `TelesignError`? -/
def isTelesignError {J : Type} : Except (ValidateError J) J → Bool
  | Except.error (ValidateError.telesignError _ _) => true
  | _ => false

/-- Does `_validate_response` raise the `json.loads` decode error? -/
def isJsonDecodeError {J : Type} : Except (ValidateError J) J → Bool
  | Except.error ValidateError.jsonDecodeError => true
  | _ => false

/-- The signature of `telesign.auth.generate_auth_headers`
(customer id, secret key, resource, method, optional fields →
headers).  `telesign/auth.py` is imported by `api.py` but is not part
of this repository snapshot, so the header generator is threaded into
every operation as an explicit argument, exactly as `api.py` calls it:
positionally with `customer_id, secret_key, resource, method` and the
keyword `fields` only on body-bearing calls. -/
abbrev AuthHeaderGen := String → String → String → String → Option Fields → Fields

/-- The module-level `rng = SystemRandom()` of `telesign.api`, embedded
as the stream of draws it would produce: draw `i` is an index into the
ten-character string `'0123456789'`. -/
abbrev RngDraws := Nat → Fin 10

/-- The characters of the Python string literal `'0123456789'` from
which `rng.choice` picks. -/
def digitChars : List Char := ['0', '1', '2', '3', '4', '5', '6', '7', '8', '9']

/-- `telesign.api.random_with_n_digits(n)`:
`"".join(rng.choice('0123456789') for _ in range(n))`.  The length
argument is a Python `int`, so it may be negative (`range(n)` is then
empty); draw `i` of the system random source selects character
`draws i` of `'0123456789'`. -/
def random_with_n_digits (draws : RngDraws) (n : Int) : String :=
  String.mk ((List.range n.toNat).map
    (fun i => digitChars.get (Fin.cast (rfl : (10 : Nat) = digitChars.length).symm (draws i))))

/-- The resource path `"/v1/phoneid/standard/%s" % phone_number`. -/
def PhoneId.standard_resource (phone_number : String) : String :=
  "/v1/phoneid/standard/" ++ phone_number

/-- The `fields` dict assembled by `PhoneId.standard`: starts empty,
`ucid` added when `use_case_code` is truthy, then `extra` merged in
when it `is not None`. -/
def PhoneId.standard_fields (use_case_code : Option String)
    (extra : Option Fields) : Fields :=
  let fields : Fields := []
  let fields := match use_case_code with
    | some u => if u = "" then fields else dictSet fields "ucid" u
    | none => fields
  match extra with
  | some e => dictUpdate fields e
  | none => fields

/-- `PhoneId.standard`: builds the resource and fields, obtains auth
headers WITHOUT the fields, issues `requests.get` with the fields as
URL `params`, and wraps the validated response.  Returns the post-call
object state, the request issued, and the outcome. -/
def PhoneId.standard {J : Type} (gah : AuthHeaderGen) (rng : RngDraws)
    (jsonLoads : String → Option J) (http : HttpRequest → HttpResponse)
    (self : ServiceBase) (phone_number : String)
    (use_case_code : Option String) (extra : Option Fields) :
    ServiceBase × HttpRequest × Except (ValidateError J) (Response J) :=
  let resource := PhoneId.standard_resource phone_number
  let method := "GET"
  let fields := PhoneId.standard_fields use_case_code extra
  let headers := gah self._customer_id self._secret_key resource method none
  let req : HttpRequest :=
    { url := self._url ++ resource, method := method, params := fields,
      data := [], headers := headers, proxies := self._proxy }
  let resp := http req
  (self, req,
    (ServiceBase.validate_response jsonLoads resp).map (fun d =>
      { data := d, headers := resp.headers, status := resp.status_code,
        raw_data := resp.text, verify_code := none }))

/-- The resource path `"/v1/phoneid/score/%s" % phone_number`. -/
def PhoneId.score_resource (phone_number : String) : String :=
  "/v1/phoneid/score/" ++ phone_number

/-- The `fields` dict of `PhoneId.score`: `{"ucid": use_case_code}`
(mandatory argument), then `extra` merged in when it `is not None`. -/
def PhoneId.score_fields (use_case_code : String) (extra : Option Fields) : Fields :=
  let fields : Fields := [("ucid", use_case_code)]
  match extra with
  | some e => dictUpdate fields e
  | none => fields

/-- `PhoneId.score`. -/
def PhoneId.score {J : Type} (gah : AuthHeaderGen) (rng : RngDraws)
    (jsonLoads : String → Option J) (http : HttpRequest → HttpResponse)
    (self : ServiceBase) (phone_number : String)
    (use_case_code : String) (extra : Option Fields) :
    ServiceBase × HttpRequest × Except (ValidateError J) (Response J) :=
  let resource := PhoneId.score_resource phone_number
  let method := "GET"
  let fields := PhoneId.score_fields use_case_code extra
  let headers := gah self._customer_id self._secret_key resource method none
  let req : HttpRequest :=
    { url := self._url ++ resource, method := method, params := fields,
      data := [], headers := headers, proxies := self._proxy }
  let resp := http req
  (self, req,
    (ServiceBase.validate_response jsonLoads resp).map (fun d =>
      { data := d, headers := resp.headers, status := resp.status_code,
        raw_data := resp.text, verify_code := none }))

/-- The resource path `"/v1/phoneid/contact/%s" % phone_number`. -/
def PhoneId.contact_resource (phone_number : String) : String :=
  "/v1/phoneid/contact/" ++ phone_number

/-- The `fields` dict of `PhoneId.contact` (same shape as `score`). -/
def PhoneId.contact_fields (use_case_code : String) (extra : Option Fields) : Fields :=
  let fields : Fields := [("ucid", use_case_code)]
  match extra with
  | some e => dictUpdate fields e
  | none => fields

/-- `PhoneId.contact`. -/
def PhoneId.contact {J : Type} (gah : AuthHeaderGen) (rng : RngDraws)
    (jsonLoads : String → Option J) (http : HttpRequest → HttpResponse)
    (self : ServiceBase) (phone_number : String)
    (use_case_code : String) (extra : Option Fields) :
    ServiceBase × HttpRequest × Except (ValidateError J) (Response J) :=
  let resource := PhoneId.contact_resource phone_number
  let method := "GET"
  let fields := PhoneId.contact_fields use_case_code extra
  let headers := gah self._customer_id self._secret_key resource method none
  let req : HttpRequest :=
    { url := self._url ++ resource, method := method, params := fields,
      data := [], headers := headers, proxies := self._proxy }
  let resp := http req
  (self, req,
    (ServiceBase.validate_response jsonLoads resp).map (fun d =>
      { data := d, headers := resp.headers, status := resp.status_code,
        raw_data := resp.text, verify_code := none }))

/-- The resource path `"/v1/phoneid/live/%s" % phone_number`. -/
def PhoneId.live_resource (phone_number : String) : String :=
  "/v1/phoneid/live/" ++ phone_number

/-- The `fields` dict of `PhoneId.live` (same shape as `score`). -/
def PhoneId.live_fields (use_case_code : String) (extra : Option Fields) : Fields :=
  let fields : Fields := [("ucid", use_case_code)]
  match extra with
  | some e => dictUpdate fields e
  | none => fields

/-- `PhoneId.live`. -/
def PhoneId.live {J : Type} (gah : AuthHeaderGen) (rng : RngDraws)
    (jsonLoads : String → Option J) (http : HttpRequest → HttpResponse)
    (self : ServiceBase) (phone_number : String)
    (use_case_code : String) (extra : Option Fields) :
    ServiceBase × HttpRequest × Except (ValidateError J) (Response J) :=
  let resource := PhoneId.live_resource phone_number
  let method := "GET"
  let fields := PhoneId.live_fields use_case_code extra
  let headers := gah self._customer_id self._secret_key resource method none
  let req : HttpRequest :=
    { url := self._url ++ resource, method := method, params := fields,
      data := [], headers := headers, proxies := self._proxy }
  let resp := http req
  (self, req,
    (ServiceBase.validate_response jsonLoads resp).map (fun d =>
      { data := d, headers := resp.headers, status := resp.status_code,
        raw_data := resp.text, verify_code := none }))

/-- The resource path of `Verify.sms`. -/
def Verify.sms_resource : String := "/v1/verify/sms"

/-- The `fields` dict assembled by `Verify.sms`: the three mandatory
entries in order, then `verify_code` / `ucid` when truthy,
`originating_ip` when it `is not None`, and finally `extra` merged in
when it `is not None`. -/
def Verify.sms_fields (phone_number : String) (verify_code : Option String)
    (language template : String) (use_case_code originating_ip : Option String)
    (extra : Option Fields) : Fields :=
  let fields : Fields :=
    [("phone_number", phone_number), ("language", language), ("template", template)]
  let fields := match verify_code with
    | some v => if v = "" then fields else dictSet fields "verify_code" v
    | none => fields
  let fields := match use_case_code with
    | some u => if u = "" then fields else dictSet fields "ucid" u
    | none => fields
  let fields := match originating_ip with
    | some ip => dictSet fields "originating_ip" ip
    | none => fields
  match extra with
  | some e => dictUpdate fields e
  | none => fields

/-- `Verify.sms`: builds the fields, obtains auth headers WITH
`fields=fields`, issues `requests.post` with the same dict as the form
body, and wraps the validated response with
`verify_code=verify_code`. -/
def Verify.sms {J : Type} (gah : AuthHeaderGen) (rng : RngDraws)
    (jsonLoads : String → Option J) (http : HttpRequest → HttpResponse)
    (self : ServiceBase) (phone_number : String) (verify_code : Option String)
    (language template : String) (use_case_code originating_ip : Option String)
    (extra : Option Fields) :
    ServiceBase × HttpRequest × Except (ValidateError J) (Response J) :=
  let resource := Verify.sms_resource
  let method := "POST"
  let fields := Verify.sms_fields phone_number verify_code language template
    use_case_code originating_ip extra
  let headers := gah self._customer_id self._secret_key resource method (some fields)
  let req : HttpRequest :=
    { url := self._url ++ resource, method := method, params := [],
      data := fields, headers := headers, proxies := self._proxy }
  let resp := http req
  (self, req,
    (ServiceBase.validate_response jsonLoads resp).map (fun d =>
      { data := d, headers := resp.headers, status := resp.status_code,
        raw_data := resp.text, verify_code := verify_code }))

/-- The resource path of `Verify.call`. -/
def Verify.call_resource : String := "/v1/verify/call"

/-- The `fields` dict assembled by `Verify.call`: five mandatory
entries in order, then `verify_code` / `pressx` / `ucid` when truthy,
`originating_ip` when it `is not None`, and finally `extra` merged in
when it `is not None`. -/
def Verify.call_fields (phone_number : String) (verify_code : Option String)
    (use_case_code : Option String) (verify_method language : String)
    (extension_type redial : String) (originating_ip pressx : Option String)
    (extra : Option Fields) : Fields :=
  let fields : Fields :=
    [("phone_number", phone_number), ("language", language),
     ("verify_method", verify_method), ("extension_type", extension_type),
     ("redial", redial)]
  let fields := match verify_code with
    | some v => if v = "" then fields else dictSet fields "verify_code" v
    | none => fields
  let fields := match pressx with
    | some p => if p = "" then fields else dictSet fields "pressx" p
    | none => fields
  let fields := match use_case_code with
    | some u => if u = "" then fields else dictSet fields "ucid" u
    | none => fields
  let fields := match originating_ip with
    | some ip => dictSet fields "originating_ip" ip
    | none => fields
  match extra with
  | some e => dictUpdate fields e
  | none => fields

/-- `Verify.call` (same request shape as `Verify.sms`). -/
def Verify.call {J : Type} (gah : AuthHeaderGen) (rng : RngDraws)
    (jsonLoads : String → Option J) (http : HttpRequest → HttpResponse)
    (self : ServiceBase) (phone_number : String) (verify_code : Option String)
    (use_case_code : Option String) (verify_method language : String)
    (extension_type redial : String) (originating_ip pressx : Option String)
    (extra : Option Fields) :
    ServiceBase × HttpRequest × Except (ValidateError J) (Response J) :=
  let resource := Verify.call_resource
  let method := "POST"
  let fields := Verify.call_fields phone_number verify_code use_case_code
    verify_method language extension_type redial originating_ip pressx extra
  let headers := gah self._customer_id self._secret_key resource method (some fields)
  let req : HttpRequest :=
    { url := self._url ++ resource, method := method, params := [],
      data := fields, headers := headers, proxies := self._proxy }
  let resp := http req
  (self, req,
    (ServiceBase.validate_response jsonLoads resp).map (fun d =>
      { data := d, headers := resp.headers, status := resp.status_code,
        raw_data := resp.text, verify_code := verify_code }))

/-- The resource path `"/v1/verify/%s" % ref_id`. -/
def Verify.status_resource (ref_id : String) : String :=
  "/v1/verify/" ++ ref_id

/-- The `fields` dict of `Verify.status`: `verify_code` added when it
`is not None` (note: not truthiness), then `extra` merged in. -/
def Verify.status_fields (verify_code : Option String) (extra : Option Fields) : Fields :=
  let fields : Fields := []
  let fields := match verify_code with
    | some v => dictSet fields "verify_code" v
    | none => fields
  match extra with
  | some e => dictUpdate fields e
  | none => fields

/-- `Verify.status`: a GET like the `PhoneId` services; the `Response`
is built without a `verify_code` argument, so it defaults to `None`. -/
def Verify.status {J : Type} (gah : AuthHeaderGen) (rng : RngDraws)
    (jsonLoads : String → Option J) (http : HttpRequest → HttpResponse)
    (self : ServiceBase) (ref_id : String) (verify_code : Option String)
    (extra : Option Fields) :
    ServiceBase × HttpRequest × Except (ValidateError J) (Response J) :=
  let resource := Verify.status_resource ref_id
  let method := "GET"
  let fields := Verify.status_fields verify_code extra
  let headers := gah self._customer_id self._secret_key resource method none
  let req : HttpRequest :=
    { url := self._url ++ resource, method := method, params := fields,
      data := [], headers := headers, proxies := self._proxy }
  let resp := http req
  (self, req,
    (ServiceBase.validate_response jsonLoads resp).map (fun d =>
      { data := d, headers := resp.headers, status := resp.status_code,
        raw_data := resp.text, verify_code := none }))

/-- Modelled from the spec: `telesign/auth.py` (the canonical-string
construction inside `generate_auth_headers`) is not part of this
repository snapshot; section 4.2 of the design gives the exact output
format `METHOD\nCONTENT_MD5\nCONTENT_TYPE\nTIMESTAMP\nx-ts-nonce:NONCE\nRESOURCE_PATH`,
a plain concatenation with no trailing newline. -/
def build_canonical_string (method resource_path content_type content_md5
    timestamp nonce : String) : String :=
  method ++ "\n" ++ content_md5 ++ "\n" ++ content_type ++ "\n" ++ timestamp
    ++ "\n" ++ "x-ts-nonce:" ++ nonce ++ "\n" ++ resource_path

/-- A trivial header generator instance, for witnesses. -/
def gahZero : AuthHeaderGen := fun _ _ _ _ _ => []

/-- A constant draw stream, for witnesses. -/
def rngZero : RngDraws := fun _ => 0

/-- A transport oracle that always answers 200 with body `"{}"`,
for witnesses. -/
def httpOk : HttpRequest → HttpResponse :=
  fun _ => { status_code := 200, text := "{}", headers := [] }

/-- A concrete client state, for witnesses. -/
def sb0 : ServiceBase :=
  ServiceBase.init "rest.telesign.com" "CUST1" "dGVzdGtleQ==" true none

/-- The `Response` value `Verify.sms` produces under `httpOk` with
verify code `"12345"`, for witnesses. -/
def respSms0 : Response String :=
  { data := "{}", headers := [], status := 200, raw_data := "{}",
    verify_code := some "12345" }

/-- A concrete parse function standing in for Python's `json.loads`
when the model is evaluated on closed inputs: the empty JSON object
body `"{}"` parses (the parsed value kept as its source text), any
other body fails.  It agrees with `json.loads` on the probe bodies
used below: `json.loads("{}")` succeeds, `json.loads("not json")`
raises `ValueError`. -/
def jsonLoadsStub : String → Option String :=
  fun s => if s = "{}" then some s else none

/-- A 401 response with a well-formed JSON body, for witnesses. -/
def resp401ok : HttpResponse := { status_code := 401, text := "{}", headers := [] }

/-- A 500 response with a non-JSON body, for witnesses. -/
def resp500bad : HttpResponse := { status_code := 500, text := "not json", headers := [] }


theorem dictGet_dictSet_self (d : Fields) (k v : String) :
    dictGet (dictSet d k v) k = some v := by
  induction d with
  | nil => simp [dictSet, dictGet]
  | cons p rest ih =>
    by_cases h : p.1 = k
    · simp [dictSet, h, dictGet]
    · simp [dictSet, h, dictGet, ih]

theorem dictGet_dictSet_ne (d : Fields) (k v k' : String) (h : k' ≠ k) :
    dictGet (dictSet d k v) k' = dictGet d k' := by
  induction d with
  | nil => simp [dictSet, dictGet, Ne.symm h]
  | cons p rest ih =>
    by_cases hp : p.1 = k
    · have hpk : p.1 ≠ k' := by rw [hp]; exact Ne.symm h
      simp [dictSet, hp, dictGet, Ne.symm h, hpk]
    · by_cases hp' : p.1 = k'
      · simp [dictSet, hp, dictGet, hp', h]
      · simp [dictSet, hp, dictGet, hp', ih]

theorem dictGet_dictUpdate_not_mem (d e : Fields) (k : String)
    (h : k ∉ e.map Prod.fst) :
    dictGet (dictUpdate d e) k = dictGet d k := by
  induction e generalizing d with
  | nil => rfl
  | cons p rest ih =>
    simp only [List.map_cons, List.mem_cons, not_or] at h
    have step : dictUpdate d (p :: rest) = dictUpdate (dictSet d p.1 p.2) rest := rfl
    rw [step, ih _ h.2, dictGet_dictSet_ne _ _ _ _ h.1]

theorem dictGet_dictUpdate_mem (d e : Fields) (k : String)
    (hnd : (e.map Prod.fst).Nodup) (hk : k ∈ e.map Prod.fst) :
    dictGet (dictUpdate d e) k = dictGet e k := by
  induction e generalizing d with
  | nil => simp at hk
  | cons p rest ih =>
    have step : dictUpdate d (p :: rest) = dictUpdate (dictSet d p.1 p.2) rest := rfl
    simp only [List.map_cons, List.nodup_cons] at hnd
    simp only [List.map_cons, List.mem_cons] at hk
    rcases hk with hk | hk
    · subst hk
      rw [step, dictGet_dictUpdate_not_mem _ _ _ hnd.1, dictGet_dictSet_self]
      simp [dictGet]
    · have hkp : k ≠ p.1 := fun hkp => hnd.1 (hkp ▸ hk)
      rw [step, ih _ hnd.2 hk]
      simp [dictGet, Ne.symm hkp]

/-- C1 counterexample: on a response whose body is not valid JSON,
`_validate_response` raises the `json.loads` error before ever looking
at the status code, so a 401 response does NOT raise
`AuthorizationError` and a 200 response does NOT return a value. -/
theorem C1_counterexample :
    isAuthorizationError (ServiceBase.validate_response jsonLoadsStub
      { status_code := 401, text := "not json", headers := [] }) = false
    ∧ ServiceBase.validate_response jsonLoadsStub
      { status_code := 200, text := "not json", headers := [] }
      = Except.error ValidateError.jsonDecodeError := by
  constructor
  · decide
  · rfl

/-- C1 (amended: restricted to responses whose body is valid JSON):
`_validate_response` raises `AuthorizationError` exactly when the
status code is 401, raises `TelesignError` exactly for every other
status code different from 200, and returns the JSON-parsed body for
status 200. -/
theorem C1_validate_response_status_dispatch {J : Type}
    (jsonLoads : String → Option J) (resp : HttpResponse) (j : J)
    (h : jsonLoads resp.text = some j) :
    (isAuthorizationError (ServiceBase.validate_response jsonLoads resp) = true
      ↔ resp.status_code = 401)
    ∧ (isTelesignError (ServiceBase.validate_response jsonLoads resp) = true
      ↔ (resp.status_code ≠ 200 ∧ resp.status_code ≠ 401))
    ∧ (resp.status_code = 200 →
      ServiceBase.validate_response jsonLoads resp = Except.ok j) := by
  unfold ServiceBase.validate_response
  rw [h]
  by_cases h200 : resp.status_code = 200
  · simp [h200, isAuthorizationError, isTelesignError]
  · by_cases h401 : resp.status_code = 401
    · simp [h200, h401, isAuthorizationError, isTelesignError]
    · simp [h200, h401, isAuthorizationError, isTelesignError]

theorem C1_validate_response_status_dispatch_witness :
    jsonLoadsStub resp401ok.text = some "{}"
    ∧ ((isAuthorizationError (ServiceBase.validate_response jsonLoadsStub resp401ok) = true
        ↔ resp401ok.status_code = 401)
      ∧ (isTelesignError (ServiceBase.validate_response jsonLoadsStub resp401ok) = true
        ↔ (resp401ok.status_code ≠ 200 ∧ resp401ok.status_code ≠ 401))
      ∧ (resp401ok.status_code = 200 →
        ServiceBase.validate_response jsonLoadsStub resp401ok = Except.ok "{}")) :=
  ⟨rfl, C1_validate_response_status_dispatch jsonLoadsStub resp401ok "{}" rfl⟩

/-- C9: `_validate_response` parses the body before inspecting the
status code: a non-JSON body yields the decode error whatever the
status, and `AuthorizationError` / `TelesignError` are only raised
when the body parsed. -/
theorem C9_parse_before_status {J : Type} (jsonLoads : String → Option J)
    (resp : HttpResponse) :
    (jsonLoads resp.text = none →
      ServiceBase.validate_response jsonLoads resp
        = Except.error ValidateError.jsonDecodeError)
    ∧ ((isAuthorizationError (ServiceBase.validate_response jsonLoads resp) = true
        ∨ isTelesignError (ServiceBase.validate_response jsonLoads resp) = true) →
      (jsonLoads resp.text).isSome = true) := by
  constructor
  · intro h
    unfold ServiceBase.validate_response
    rw [h]
  · intro h
    cases hj : jsonLoads resp.text with
    | some j => rfl
    | none =>
      unfold ServiceBase.validate_response at h
      rw [hj] at h
      simp [isAuthorizationError, isTelesignError] at h

theorem C9_parse_before_status_witness :
    jsonLoadsStub resp500bad.text = none
    ∧ ServiceBase.validate_response jsonLoadsStub resp500bad
      = Except.error ValidateError.jsonDecodeError
    ∧ isAuthorizationError (ServiceBase.validate_response jsonLoadsStub resp401ok) = true
    ∧ (jsonLoadsStub resp401ok.text).isSome = true :=
  ⟨rfl, (C9_parse_before_status jsonLoadsStub resp500bad).1 rfl,
    by decide, (C9_parse_before_status jsonLoadsStub resp401ok).2 (Or.inl (by decide))⟩

theorem digitChars_bounds : ∀ c ∈ digitChars, '0' ≤ c ∧ c ≤ '9' := by decide

/-- C4: for every draw sequence and positive length, the code
generator returns exactly `length` characters, each one of the decimal
digits `'0'`–`'9'`. -/
theorem C4_random_code_length_and_digits (draws : RngDraws) (n : Int) (h : 0 < n) :
    ((random_with_n_digits draws n).length : Int) = n
    ∧ ∀ c ∈ (random_with_n_digits draws n).data, c ∈ digitChars ∧ '0' ≤ c ∧ c ≤ '9' := by
  constructor
  · show (((String.mk ((List.range n.toNat).map _)).length : Nat) : Int) = n
    simp [String.length]
    exact h.le
  · intro c hc
    have hc' : c ∈ (List.range n.toNat).map
        (fun i => digitChars.get
          (Fin.cast (rfl : (10 : Nat) = digitChars.length).symm (draws i))) := hc
    obtain ⟨i, hi, rfl⟩ := List.mem_map.mp hc'
    have hmem : digitChars.get
        (Fin.cast (rfl : (10 : Nat) = digitChars.length).symm (draws i)) ∈ digitChars := by
      apply List.get_mem
    exact ⟨hmem, digitChars_bounds _ hmem⟩

theorem C4_random_code_length_and_digits_witness :
    (0 : Int) < 6
    ∧ (((random_with_n_digits (fun _ => (0 : Fin 10)) 6).length : Int) = 6
      ∧ ∀ c ∈ (random_with_n_digits (fun _ => (0 : Fin 10)) 6).data,
        c ∈ digitChars ∧ '0' ≤ c ∧ c ≤ '9') :=
  ⟨by decide, C4_random_code_length_and_digits (fun _ => (0 : Fin 10)) 6 (by decide)⟩

/-- C5 counterexample: at the non-positive length 0 the generator does
not signal any error — `range(0)` is empty and it returns the empty
string (likewise for every negative length). -/
theorem C5_counterexample :
    random_with_n_digits (fun _ => (0 : Fin 10)) 0 = ""
    ∧ random_with_n_digits (fun _ => (0 : Fin 10)) (-7) = "" := by
  constructor
  · rfl
  · rfl

/-- C5 (amended): the generator never raises for a non-positive
length; for every `length <= 0` it returns the empty string. -/
theorem C5_nonpositive_length_returns_empty (draws : RngDraws) (n : Int) (h : n ≤ 0) :
    random_with_n_digits draws n = "" := by
  unfold random_with_n_digits
  rw [Int.toNat_of_nonpos h]
  rfl

theorem C5_nonpositive_length_returns_empty_witness :
    (-3 : Int) ≤ 0 ∧ random_with_n_digits (fun _ => (0 : Fin 10)) (-3) = "" :=
  ⟨by decide, C5_nonpositive_length_returns_empty (fun _ => (0 : Fin 10)) (-3) (by decide)⟩

/-- C2: in `Verify.sms` and `Verify.call`, the `fields` dict handed to
`generate_auth_headers` (from which the signed body digest is
computed) is exactly the dict sent as the POST body, and the headers
the generator returns are put on the request unmodified. -/
theorem C2_signed_fields_equal_sent_body {J : Type} (gah : AuthHeaderGen)
    (rng : RngDraws) (jsonLoads : String → Option J)
    (http : HttpRequest → HttpResponse) (self : ServiceBase)
    (pn : String) (vc : Option String) (lang tmpl : String)
    (ucc oip : Option String) (vm et rd : String) (px : Option String)
    (extra : Option Fields) :
    ((Verify.sms gah rng jsonLoads http self pn vc lang tmpl ucc oip extra).2.1.data
        = Verify.sms_fields pn vc lang tmpl ucc oip extra
      ∧ (Verify.sms gah rng jsonLoads http self pn vc lang tmpl ucc oip extra).2.1.headers
        = gah self._customer_id self._secret_key Verify.sms_resource "POST"
            (some (Verify.sms_fields pn vc lang tmpl ucc oip extra)))
    ∧ ((Verify.call gah rng jsonLoads http self pn vc ucc vm lang et rd oip px extra).2.1.data
        = Verify.call_fields pn vc ucc vm lang et rd oip px extra
      ∧ (Verify.call gah rng jsonLoads http self pn vc ucc vm lang et rd oip px extra).2.1.headers
        = gah self._customer_id self._secret_key Verify.call_resource "POST"
            (some (Verify.call_fields pn vc ucc vm lang et rd oip px extra))) :=
  ⟨⟨rfl, rfl⟩, ⟨rfl, rfl⟩⟩

/-- C7: every public operation returns the `ServiceBase` state it
received: the whole record — and hence each of the attributes
`_customer_id`, `_secret_key`, `_api_host`, `_url`, `_proxy` — is
unchanged by `PhoneId.standard`, `score`, `contact`, `live`,
`Verify.sms`, `call` and `status`. -/
theorem C7_state_immutable {J : Type} (gah : AuthHeaderGen) (rng : RngDraws)
    (jsonLoads : String → Option J) (http : HttpRequest → HttpResponse)
    (self : ServiceBase) (pn ucc2 ucc3 ucc4 ref_id : String)
    (ucc1 : Option String) (extra : Option Fields)
    (vc : Option String) (lang tmpl : String) (ucc5 oip : Option String)
    (vm et rd : String) (px : Option String) :
    (PhoneId.standard gah rng jsonLoads http self pn ucc1 extra).1 = self
    ∧ (PhoneId.score gah rng jsonLoads http self pn ucc2 extra).1 = self
    ∧ (PhoneId.contact gah rng jsonLoads http self pn ucc3 extra).1 = self
    ∧ (PhoneId.live gah rng jsonLoads http self pn ucc4 extra).1 = self
    ∧ (Verify.sms gah rng jsonLoads http self pn vc lang tmpl ucc5 oip extra).1 = self
    ∧ (Verify.call gah rng jsonLoads http self pn vc ucc5 vm lang et rd oip px extra).1 = self
    ∧ (Verify.status gah rng jsonLoads http self ref_id vc extra).1 = self :=
  ⟨rfl, rfl, rfl, rfl, rfl, rfl, rfl⟩

/-- C3 (spec-modelled, since `telesign/auth.py` is not in the
snapshot): for every valid body-less request — method, resource path,
timestamp and nonce free of newlines, resource path starting with the
leading slash — the canonical string is the newline-join of exactly
the six segments `[METHOD, "", "", TIMESTAMP, "x-ts-nonce:" ++ NONCE,
RESOURCE_PATH]` (segments 2 and 3 the empty content-MD5 and
content-type), contains exactly five newline characters, and has no
trailing newline. -/
theorem C3_canonical_string_six_segments (method rp ts nonce : String)
    (hm : '\n' ∉ method.data) (hr : '\n' ∉ rp.data)
    (ht : '\n' ∉ ts.data) (hn : '\n' ∉ nonce.data)
    (hslash : rp.data.head? = some '/') :
    build_canonical_string method rp "" "" ts nonce
      = String.intercalate "\n" [method, "", "", ts, "x-ts-nonce:" ++ nonce, rp]
    ∧ (build_canonical_string method rp "" "" ts nonce).data.count '\n' = 5
    ∧ (build_canonical_string method rp "" "" ts nonce).data.getLast? ≠ some '\n' := by
  have h1 : ("\n".data).count '\n' = 1 := rfl
  have h2 : ("".data).count '\n' = 0 := rfl
  have h3 : ("x-ts-nonce:".data).count '\n' = 0 := rfl
  have hrnil : rp.data ≠ [] := by
    intro he; rw [he] at hslash; simp at hslash
  refine ⟨?_, ?_, ?_⟩
  · apply congrArg String.mk
    simp [build_canonical_string, String.data_append]
  · show ((method ++ "\n" ++ "" ++ "\n" ++ "" ++ "\n" ++ ts ++ "\n" ++ "x-ts-nonce:"
      ++ nonce ++ "\n" ++ rp).data).count '\n' = 5
    simp [String.data_append, List.count_append, h1, h2, h3,
      List.count_eq_zero.mpr hm, List.count_eq_zero.mpr hr,
      List.count_eq_zero.mpr ht, List.count_eq_zero.mpr hn]
  · show ((method ++ "\n" ++ "" ++ "\n" ++ "" ++ "\n" ++ ts ++ "\n" ++ "x-ts-nonce:"
      ++ nonce ++ "\n" ++ rp).data).getLast? ≠ some '\n'
    rw [String.data_append, List.getLast?_append_of_ne_nil _ hrnil]
    intro h
    exact hr (List.mem_of_mem_getLast? (by rw [h]; rfl))

theorem C3_canonical_string_six_segments_witness :
    ('\n' ∉ "GET".data ∧ '\n' ∉ "/v1/verify/abc123".data ∧ '\n' ∉ "T1".data
      ∧ '\n' ∉ "n1".data ∧ "/v1/verify/abc123".data.head? = some '/')
    ∧ build_canonical_string "GET" "/v1/verify/abc123" "" "" "T1" "n1"
        = "GET\n\n\nT1\nx-ts-nonce:n1\n/v1/verify/abc123"
    ∧ (build_canonical_string "GET" "/v1/verify/abc123" "" "" "T1" "n1"
        = String.intercalate "\n"
            ["GET", "", "", "T1", "x-ts-nonce:" ++ "n1", "/v1/verify/abc123"]
      ∧ (build_canonical_string "GET" "/v1/verify/abc123" "" "" "T1" "n1").data.count '\n' = 5
      ∧ (build_canonical_string "GET" "/v1/verify/abc123" "" "" "T1" "n1").data.getLast?
          ≠ some '\n') :=
  ⟨⟨by decide, by decide, by decide, by decide, by decide⟩, by decide,
    C3_canonical_string_six_segments "GET" "/v1/verify/abc123" "T1" "n1"
      (by decide) (by decide) (by decide) (by decide) (by decide)⟩

theorem char_not_mem_append (c : Char) (pre pn : String)
    (hpre : c ∉ pre.data) (h : c ∉ pn.data) : c ∉ (pre ++ pn).data := by
  rw [String.data_append]
  simp [List.mem_append, hpre, h]

/-- C6: every query-style operation passes method `GET` and a
resource that starts with the leading slash to
`generate_auth_headers`, passes NO fields into header generation
(the query fields travel as URL `params` instead), and serializes no
query string into the resource (whenever the input contains no `?`,
neither does the resource). -/
theorem C6_get_operations_shape {J : Type} (gah : AuthHeaderGen) (rng : RngDraws)
    (jsonLoads : String → Option J) (http : HttpRequest → HttpResponse)
    (self : ServiceBase) (pn ref_id : String) (ucc1 : Option String)
    (ucc2 ucc3 ucc4 : String) (vc : Option String) (extra : Option Fields) :
    ((PhoneId.standard gah rng jsonLoads http self pn ucc1 extra).2.1.method = "GET"
      ∧ (PhoneId.standard gah rng jsonLoads http self pn ucc1 extra).2.1.headers
        = gah self._customer_id self._secret_key (PhoneId.standard_resource pn) "GET" none
      ∧ (PhoneId.standard gah rng jsonLoads http self pn ucc1 extra).2.1.params
        = PhoneId.standard_fields ucc1 extra
      ∧ (PhoneId.standard_resource pn).data.head? = some '/'
      ∧ ('?' ∉ pn.data → '?' ∉ (PhoneId.standard_resource pn).data))
    ∧ ((PhoneId.score gah rng jsonLoads http self pn ucc2 extra).2.1.method = "GET"
      ∧ (PhoneId.score gah rng jsonLoads http self pn ucc2 extra).2.1.headers
        = gah self._customer_id self._secret_key (PhoneId.score_resource pn) "GET" none
      ∧ (PhoneId.score gah rng jsonLoads http self pn ucc2 extra).2.1.params
        = PhoneId.score_fields ucc2 extra
      ∧ (PhoneId.score_resource pn).data.head? = some '/'
      ∧ ('?' ∉ pn.data → '?' ∉ (PhoneId.score_resource pn).data))
    ∧ ((PhoneId.contact gah rng jsonLoads http self pn ucc3 extra).2.1.method = "GET"
      ∧ (PhoneId.contact gah rng jsonLoads http self pn ucc3 extra).2.1.headers
        = gah self._customer_id self._secret_key (PhoneId.contact_resource pn) "GET" none
      ∧ (PhoneId.contact gah rng jsonLoads http self pn ucc3 extra).2.1.params
        = PhoneId.contact_fields ucc3 extra
      ∧ (PhoneId.contact_resource pn).data.head? = some '/'
      ∧ ('?' ∉ pn.data → '?' ∉ (PhoneId.contact_resource pn).data))
    ∧ ((PhoneId.live gah rng jsonLoads http self pn ucc4 extra).2.1.method = "GET"
      ∧ (PhoneId.live gah rng jsonLoads http self pn ucc4 extra).2.1.headers
        = gah self._customer_id self._secret_key (PhoneId.live_resource pn) "GET" none
      ∧ (PhoneId.live gah rng jsonLoads http self pn ucc4 extra).2.1.params
        = PhoneId.live_fields ucc4 extra
      ∧ (PhoneId.live_resource pn).data.head? = some '/'
      ∧ ('?' ∉ pn.data → '?' ∉ (PhoneId.live_resource pn).data))
    ∧ ((Verify.status gah rng jsonLoads http self ref_id vc extra).2.1.method = "GET"
      ∧ (Verify.status gah rng jsonLoads http self ref_id vc extra).2.1.headers
        = gah self._customer_id self._secret_key (Verify.status_resource ref_id) "GET" none
      ∧ (Verify.status gah rng jsonLoads http self ref_id vc extra).2.1.params
        = Verify.status_fields vc extra
      ∧ (Verify.status_resource ref_id).data.head? = some '/'
      ∧ ('?' ∉ ref_id.data → '?' ∉ (Verify.status_resource ref_id).data)) := by
  refine ⟨⟨rfl, rfl, rfl, rfl, ?_⟩, ⟨rfl, rfl, rfl, rfl, ?_⟩, ⟨rfl, rfl, rfl, rfl, ?_⟩,
    ⟨rfl, rfl, rfl, rfl, ?_⟩, ⟨rfl, rfl, rfl, rfl, ?_⟩⟩
  · exact fun h => char_not_mem_append '?' _ _ (by decide) h
  · exact fun h => char_not_mem_append '?' _ _ (by decide) h
  · exact fun h => char_not_mem_append '?' _ _ (by decide) h
  · exact fun h => char_not_mem_append '?' _ _ (by decide) h
  · exact fun h => char_not_mem_append '?' _ _ (by decide) h

theorem C6_get_operations_shape_witness :
    '?' ∉ ("13105551212" : String).data
    ∧ '?' ∉ (PhoneId.standard_resource "13105551212").data
    ∧ '?' ∉ (PhoneId.score_resource "13105551212").data
    ∧ '?' ∉ (PhoneId.contact_resource "13105551212").data
    ∧ '?' ∉ (PhoneId.live_resource "13105551212").data
    ∧ '?' ∉ (Verify.status_resource "ref1").data
    ∧ (PhoneId.standard gahZero rngZero jsonLoadsStub httpOk sb0 "13105551212"
        none none).2.1.method = "GET" := by
  have h := C6_get_operations_shape gahZero rngZero jsonLoadsStub httpOk sb0
    "13105551212" "ref1" none "ATCK" "ATCK" "ATCK" none none
  exact ⟨by decide, h.1.2.2.2.2 (by decide), h.2.1.2.2.2.2 (by decide),
    h.2.2.1.2.2.2.2 (by decide), h.2.2.2.1.2.2.2.2 (by decide),
    h.2.2.2.2.2.2.2.2 (by decide), h.1.1⟩

theorem verify_code_of_map_ok {J : Type} (v : Except (ValidateError J) J)
    (resp : HttpResponse) (vc : Option String) (r : Response J)
    (h : v.map (fun d => Response.mk d resp.headers resp.status_code resp.text vc)
      = Except.ok r) :
    r.verify_code = vc := by
  cases v with
  | error e => exact absurd h (by simp [Except.map])
  | ok d =>
    simp [Except.map] at h
    rw [← h]

/-- C8: the `Response` of `Verify.sms` / `Verify.call` carries exactly
the caller-supplied `verify_code` (`none` when omitted), and no
operation consults the module-level random source: every operation's
result is unchanged under an arbitrary change of the draw stream, so
the client never generates a verification code itself. -/
theorem C8_verify_code_passthrough_no_rng {J : Type} (gah : AuthHeaderGen)
    (rng rng' : RngDraws) (jsonLoads : String → Option J)
    (http : HttpRequest → HttpResponse) (self : ServiceBase)
    (pn ref_id : String) (vc : Option String) (lang tmpl : String)
    (ucc oip : Option String) (ucc2 : String) (vm et rd : String)
    (px : Option String) (extra : Option Fields) (r r' : Response J) :
    ((Verify.sms gah rng jsonLoads http self pn vc lang tmpl ucc oip extra).2.2
        = Except.ok r → r.verify_code = vc)
    ∧ ((Verify.call gah rng jsonLoads http self pn vc ucc vm lang et rd oip px extra).2.2
        = Except.ok r' → r'.verify_code = vc)
    ∧ Verify.sms gah rng jsonLoads http self pn vc lang tmpl ucc oip extra
        = Verify.sms gah rng' jsonLoads http self pn vc lang tmpl ucc oip extra
    ∧ Verify.call gah rng jsonLoads http self pn vc ucc vm lang et rd oip px extra
        = Verify.call gah rng' jsonLoads http self pn vc ucc vm lang et rd oip px extra
    ∧ PhoneId.standard gah rng jsonLoads http self pn ucc extra
        = PhoneId.standard gah rng' jsonLoads http self pn ucc extra
    ∧ PhoneId.score gah rng jsonLoads http self pn ucc2 extra
        = PhoneId.score gah rng' jsonLoads http self pn ucc2 extra
    ∧ PhoneId.contact gah rng jsonLoads http self pn ucc2 extra
        = PhoneId.contact gah rng' jsonLoads http self pn ucc2 extra
    ∧ PhoneId.live gah rng jsonLoads http self pn ucc2 extra
        = PhoneId.live gah rng' jsonLoads http self pn ucc2 extra
    ∧ Verify.status gah rng jsonLoads http self ref_id vc extra
        = Verify.status gah rng' jsonLoads http self ref_id vc extra := by
  refine ⟨?_, ?_, rfl, rfl, rfl, rfl, rfl, rfl, rfl⟩
  · intro h
    exact verify_code_of_map_ok _ _ _ _ h
  · intro h
    exact verify_code_of_map_ok _ _ _ _ h

theorem C8_verify_code_passthrough_no_rng_witness :
    (Verify.sms gahZero rngZero jsonLoadsStub httpOk sb0 "13105551212"
        (some "12345") "en" "" none none none).2.2 = Except.ok respSms0
    ∧ respSms0.verify_code = some "12345" := by
  have h : (Verify.sms gahZero rngZero jsonLoadsStub httpOk sb0 "13105551212"
      (some "12345") "en" "" none none none).2.2 = Except.ok respSms0 := rfl
  exact ⟨h, (C8_verify_code_passthrough_no_rng gahZero rngZero rngZero jsonLoadsStub
    httpOk sb0 "13105551212" "ref1" (some "12345") "en" "" none none "ATCK" "" "" ""
    none none respSms0 respSms0).1 h⟩

/-- C10: in every operation accepting an `extra` mapping, `extra` is
merged last: any key present both in the endpoint-assembled fields and
in `extra` ends up with the value from `extra`. -/
theorem C10_extra_overrides (ucc1 : Option String) (ucc2 ucc3 ucc4 : String)
    (pn : String) (vc : Option String) (lang tmpl : String)
    (ucc5 oip : Option String) (vc6 ucc6 : Option String)
    (vm6 lang6 et6 rd6 : String) (oip6 px6 : Option String)
    (vc7 : Option String) (e : Fields) (k : String)
    (hnd : (e.map Prod.fst).Nodup) (hk : k ∈ e.map Prod.fst) :
    dictGet (PhoneId.standard_fields ucc1 (some e)) k = dictGet e k
    ∧ dictGet (PhoneId.score_fields ucc2 (some e)) k = dictGet e k
    ∧ dictGet (PhoneId.contact_fields ucc3 (some e)) k = dictGet e k
    ∧ dictGet (PhoneId.live_fields ucc4 (some e)) k = dictGet e k
    ∧ dictGet (Verify.sms_fields pn vc lang tmpl ucc5 oip (some e)) k = dictGet e k
    ∧ dictGet (Verify.call_fields pn vc6 ucc6 vm6 lang6 et6 rd6 oip6 px6 (some e)) k
        = dictGet e k
    ∧ dictGet (Verify.status_fields vc7 (some e)) k = dictGet e k := by
  refine ⟨?_, ?_, ?_, ?_, ?_, ?_, ?_⟩ <;>
    exact dictGet_dictUpdate_mem _ e k hnd hk

theorem C10_extra_overrides_witness :
    ((([("ucid", "OTHR"), ("phone_number", "19998887777")] : Fields).map Prod.fst).Nodup
      ∧ "ucid" ∈ ([("ucid", "OTHR"), ("phone_number", "19998887777")] : Fields).map Prod.fst)
    ∧ dictGet (PhoneId.standard_fields (some "ATCK")
        (some [("ucid", "OTHR"), ("phone_number", "19998887777")])) "ucid"
      = dictGet [("ucid", "OTHR"), ("phone_number", "19998887777")] "ucid"
    ∧ dictGet (Verify.sms_fields "13105551212" (some "12345") "en" "" (some "ATCK") none
        (some [("ucid", "OTHR"), ("phone_number", "19998887777")])) "ucid"
      = dictGet [("ucid", "OTHR"), ("phone_number", "19998887777")] "ucid"
    ∧ dictGet (PhoneId.standard_fields (some "ATCK")
        (some [("ucid", "OTHR"), ("phone_number", "19998887777")])) "ucid"
      = some "OTHR" := by
  have h := C10_extra_overrides (some "ATCK") "ATCK" "ATCK" "ATCK" "13105551212"
    (some "12345") "en" "" (some "ATCK") none (some "12345") (some "ATCK") "" "en" "" ""
    none none (some "12345") [("ucid", "OTHR"), ("phone_number", "19998887777")] "ucid"
    (by decide) (by decide)
  exact ⟨⟨by decide, by decide⟩, h.1, h.2.2.2.2.1, by decide⟩
